import Mathlib

/-!
Verification of the dataflow graph engine in `src/core/base.py` and
`src/core/common.py` (classes `Pipe`, `DataPackage`, `Generator`, `Funnel`,
`Switcher`, `Copy`, `Joiner`).

The Python classes are shallowly embedded: each mutable object becomes a Lean
structure, each method becomes a pure function from the old state to the new
state together with the observable effects of the call (tables forwarded
downstream, warnings printed, exceptions raised).  Exceptions are modelled
with `Except PyError`; a method body that cannot raise is total.  pandas
DataFrames become `Table` (an ordered list of column names plus a list of
rows); the pandas operations the code calls (`pd.concat`, `pd.merge`,
`Series.unique`, boolean-mask filtering, `DataFrame.copy`) are modelled by
`pdConcat`, `pdMerge`, `firstOcc`, `List.filter` and heap allocation.
-/

/-- Scalar cell of a DataFrame.  `intV`/`strV` are the two routing-key types
the code accepts, `nullV` models pandas NaN/None (`pd.isna`), and `otherV`
stands for any other scalar (e.g. a float), which the Switcher's type
validation rejects. -/
inductive Value where
  | intV : Int → Value
  | strV : String → Value
  | nullV : Value
  | otherV : Nat → Value
deriving DecidableEq, Repr

/-- A pandas DataFrame: ordered column names and rows of cells.  Row `i`
cell `j` is the value of column `cols[j]`. -/
structure Table where
  cols : List String
  rows : List (List Value)
deriving DecidableEq, Repr

/-- Python `raise` taxonomy actually used by the code: every deliberate
`raise` in `src/core` is a `ValueError`; `attributeError` and `indexError`
model the interpreter-level errors the code can hit (`None.sink`,
`list(...)[0]` on an empty dict).  The repository defines no
ConfigurationError or ValidationError class. -/
inductive PyError where
  | valueError : String → PyError
  | attributeError : String → PyError
  | indexError : String → PyError
deriving DecidableEq, Repr

/-- DataPackage from `base.py`: the envelope handed to `sink`, the name of
the pipe it travelled on plus the DataFrame. -/
structure DataPackage where
  pipe_name : String
  df : Table
deriving DecidableEq, Repr

/-- Python `dict[k] = v` on an insertion-ordered dict modelled as an
association list: an existing key keeps its position and gets the new value,
a new key is appended. -/
def dictInsert {κ α : Type} [DecidableEq κ] (k : κ) (v : α) (d : List (κ × α)) :
    List (κ × α) :=
  if d.any (fun p => p.1 = k) then d.map (fun p => if p.1 = k then (k, v) else p)
  else d ++ [(k, v)]

/-- Python `d[k]` / `k in d` lookup on the association-list dict. -/
def dictLookup {κ α : Type} [DecidableEq κ] (k : κ) (d : List (κ × α)) : Option α :=
  (d.find? (fun p => p.1 = k)).map Prod.snd

/-- Pipe from `base.py`: a named edge with an optional origin and an optional
destination, both object references modelled as `Nat` ids.  A fresh
`Pipe(name)` has both set to `None`. -/
structure Pipe where
  name : String
  origin : Option Nat
  destination : Option Nat
deriving DecidableEq, Repr

/-- `Pipe.__init__`. -/
def Pipe.mkNew (name : String) : Pipe :=
  { name := name, origin := none, destination := none }

/-- `Pipe.set_origin`. -/
def Pipe.set_origin (p : Pipe) (o : Nat) : Pipe :=
  { p with origin := some o }

/-- `Pipe.set_destination` from `base.py` lines 31-35: unconditionally
overwrites `self.destination`, then calls `destination.add_input_pipe(self)`.
The body contains no check and no `raise`, so the call is total; the returned
`Nat` is the consumer object on which `add_input_pipe` is invoked. -/
def Pipe.set_destination (p : Pipe) (dest : Nat) : Except PyError (Pipe × Nat) :=
  .ok ({ p with destination := some dest }, dest)

/-- `Pipe.flow` from `base.py` lines 37-39: builds
`DataPackage(self.name, df)` and synchronously calls
`self.destination.sink(data_package)`.  When `destination` is still `None`
the attribute access `None.sink` raises `AttributeError`; when bound, the
result is the consumer id together with the envelope delivered to its
`sink`. -/
def Pipe.flow (p : Pipe) (df : Table) : Except PyError (Nat × DataPackage) :=
  match p.destination with
  | none => .error (.attributeError "NoneType object has no attribute sink")
  | some d => .ok (d, { pipe_name := p.name, df := df })

/-- Generator from `common.py` lines 8-25: name, row count and the ordered
`outputs` dict mapping pipe name to the pipe object. -/
structure GeneratorState where
  name : String
  length : Nat
  outputs : List (String × Pipe)
deriving DecidableEq, Repr

/-- `Generator.__init__`. -/
def GeneratorState.mkNew (name : String) (length : Nat) : GeneratorState :=
  { name := name, length := length, outputs := [] }

/-- `Generator.add_output_pipe`: accepts one pipe, raises `ValueError` on a
second one. -/
def GeneratorState.add_output_pipe (g : GeneratorState) (p : Pipe) :
    Except PyError GeneratorState :=
  if g.outputs.length = 0 then .ok { g with outputs := dictInsert p.name p g.outputs }
  else .error (.valueError ("Generator " ++ g.name ++ " can only have 1 input"))

/-- `Generator.pump` lines 22-25: builds the single-column `number` frame
`range(length)` and forwards it through `self.outputs[list(self.outputs.keys())[0]]`.
With an empty `outputs` dict the subscript `[0]` on the empty key list raises
`IndexError` before any forwarding happens. -/
def GeneratorState.pump (g : GeneratorState) : Except PyError (Nat × DataPackage) :=
  let df : Table := { cols := ["number"],
                      rows := (List.range g.length).map (fun i => [Value.intV i]) }
  match g.outputs with
  | [] => .error (.indexError "list index out of range")
  | (_, p) :: _ => p.flow df

/-- Column union used by `pd.concat`: first frame's columns in order, then
the columns a later frame adds, in order of first appearance. -/
def unionCols (ts : List Table) : List String :=
  ts.foldl (fun acc t => acc ++ t.cols.filter (fun c => ¬ acc.contains c)) []

/-- Reindex a table to a wider column list, filling the columns it does not
have with NaN (`nullV`), as `pd.concat` does on frames whose column sets
differ. -/
def Table.reindex (t : Table) (cols : List String) : Table :=
  { cols := cols,
    rows := t.rows.map (fun r =>
      cols.map (fun c =>
        match t.cols.indexOf? c with
        | some i => r.getD i Value.nullV
        | none => Value.nullV)) }

/-- pandas `pd.concat(dfs, ignore_index=True)`: rows of every frame stacked
in list order over the union of the column sets. -/
def pdConcat (ts : List Table) : Table :=
  let cols := unionCols ts
  { cols := cols, rows := (ts.map (fun t => (t.reindex cols).rows)).flatten }

/-- Indices of the buffered frames whose column list differs from the first
frame's, i.e. the frames `Funnel.merge_and_pump` prints a
`Warning: DataFrame i has different columns` line for. -/
def funnelColumnWarnings (dfs : List Table) : List Nat :=
  match dfs with
  | [] => []
  | base :: _ =>
    (List.range dfs.length).filter (fun i => (dfs.getD i base).cols ≠ base.cols)

/-- Funnel from `common.py` lines 44-100.  `inputs`/`outputs` are the ordered
pipe dicts of the `Destination`/`Origin` bases (pipes identified by `Nat`
ids), `dfs` is the buffer list, and `combined_df` models the `self.combined_df`
attribute, absent (`none`) until the first merge (`hasattr` check in
`pump`). -/
structure FunnelState where
  name : String
  inputs : List (String × Nat)
  outputs : List (String × Nat)
  dfs : List Table
  received_inputs : Nat
  expected_inputs : Nat
  combined_df : Option Table
deriving DecidableEq, Repr

/-- `Funnel.__init__`. -/
def FunnelState.mkNew (name : String) : FunnelState :=
  { name := name, inputs := [], outputs := [], dfs := [],
    received_inputs := 0, expected_inputs := 0, combined_df := none }

/-- `Funnel.add_input_pipe` lines 53-55: stores the pipe in the `inputs`
dict under its name (replacing any same-named pipe) and unconditionally
increments `expected_inputs`.  No cardinality check, no raise. -/
def FunnelState.add_input_pipe (s : FunnelState) (pipeName : String) (pid : Nat) :
    FunnelState :=
  { s with inputs := dictInsert pipeName pid s.inputs,
           expected_inputs := s.expected_inputs + 1 }

/-- `Funnel.add_output_pipe`: one output allowed, `ValueError` on a second. -/
def FunnelState.add_output_pipe (s : FunnelState) (pipeName : String) (pid : Nat) :
    Except PyError FunnelState :=
  if s.outputs.length = 0 then .ok { s with outputs := dictInsert pipeName pid s.outputs }
  else .error (.valueError ("Funnel " ++ s.name ++ " can only have 1 output"))

/-- Observable outcome of one `Funnel.sink` call: the state afterwards, the
table forwarded on the output pipe (if any), the indices of the buffered
frames warned about for column mismatch, and whether the merge
(`merge_and_pump` reaching `pd.concat`) ran during the call. -/
structure FunnelStepResult where
  state : FunnelState
  emitted : Option Table
  warnings : List Nat
  merged : Bool
deriving DecidableEq, Repr

/-- `Funnel.pump` lines 94-100: forwards `combined_df` through the sole
output pipe when both exist, otherwise prints a warning and does nothing.
Returns the forwarded table, `none` on the warning path. -/
def FunnelState.pump (s : FunnelState) : Option Table :=
  match s.combined_df with
  | some c => if s.outputs.length > 0 then some c else none
  | none => none

/-- `Funnel.merge_and_pump` lines 77-92: with a non-empty buffer, warns for
every frame whose columns differ from the first frame's, sets
`self.combined_df` to the concatenation of the whole buffer and calls
`pump()`.  Neither the buffer nor `received_inputs` is touched. -/
def FunnelState.merge_and_pump (s : FunnelState) : FunnelStepResult :=
  if s.dfs.length > 0 then
    let warns := funnelColumnWarnings s.dfs
    let s1 := { s with combined_df := some (pdConcat s.dfs) }
    { state := s1, emitted := s1.pump, warnings := warns, merged := true }
  else
    { state := s, emitted := none, warnings := [], merged := false }

/-- `Funnel.sink` lines 65-75: appends the envelope's frame to the buffer,
increments `received_inputs`, and calls `merge_and_pump` exactly when the
new count equals `expected_inputs`. -/
def FunnelState.sink (s : FunnelState) (dp : DataPackage) : FunnelStepResult :=
  let s1 := { s with dfs := s.dfs ++ [dp.df],
                     received_inputs := s.received_inputs + 1 }
  if s1.received_inputs = s1.expected_inputs then s1.merge_and_pump
  else { state := s1, emitted := none, warnings := [], merged := false }

/-- Copy from `common.py` lines 270-322.  Because the claim about Copy is
about object identity (mutating one branch's table must not show through
another), DataFrame objects are kept in an explicit heap (`List Table`) and
the state holds a heap reference instead of a value. -/
structure CopyState where
  name : String
  inputs : List (String × Nat)
  outputs : List (String × Nat)
  received_df : Option Nat
deriving DecidableEq, Repr

/-- `Copy.__init__`. -/
def CopyState.mkNew (name : String) : CopyState :=
  { name := name, inputs := [], outputs := [], received_df := none }

/-- `Copy.add_input_pipe`: one input allowed, `ValueError` on a second. -/
def CopyState.add_input_pipe (s : CopyState) (pipeName : String) (pid : Nat) :
    Except PyError CopyState :=
  if s.inputs.length = 0 then .ok { s with inputs := dictInsert pipeName pid s.inputs }
  else .error (.valueError ("Copy " ++ s.name ++ " can only have 1 input"))

/-- `Copy.add_output_pipe` lines 283-287: stores the pipe in the `outputs`
dict under its name with no cardinality check, so a same-named pipe replaces
the earlier one. -/
def CopyState.add_output_pipe (s : CopyState) (pipeName : String) (pid : Nat) :
    CopyState :=
  { s with outputs := dictInsert pipeName pid s.outputs }

/-- Loop body of `Copy.pump`: for each output pipe in dict (attachment)
order, `df.copy()` allocates a fresh heap cell holding the same contents and
`pipe.flow` delivers that fresh reference.  Returns the grown heap and the
(pipe name, reference) pairs delivered, in order. -/
def copyBroadcast (outputs : List (String × Nat)) (heap : List Table) (ref : Nat) :
    List Table × List (String × Nat) :=
  match outputs with
  | [] => (heap, [])
  | (nm, _) :: rest =>
    let idx := heap.length
    let heap1 := heap ++ [heap.getD ref { cols := [], rows := [] }]
    let res := copyBroadcast rest heap1 ref
    (res.1, (nm, idx) :: res.2)

/-- Observable outcome of a `Copy.pump`/`Copy.sink` call: state afterwards,
heap afterwards, the (pipe name, table reference) deliveries in attachment
order, and which of the two warning prints fired. -/
structure CopyStepResult where
  state : CopyState
  heap : List Table
  delivered : List (String × Nat)
  warnedNoData : Bool
  warnedNoOutputs : Bool
deriving DecidableEq, Repr

/-- `Copy.pump` lines 300-322: warn-and-return when there is no stored frame
or no output pipe; otherwise send an independent copy to every output pipe
and clear `received_df`.  No path raises. -/
def CopyState.pump (s : CopyState) (heap : List Table) : CopyStepResult :=
  match s.received_df with
  | none =>
    { state := s, heap := heap, delivered := [],
      warnedNoData := true, warnedNoOutputs := false }
  | some ref =>
    if s.outputs.length = 0 then
      { state := s, heap := heap, delivered := [],
        warnedNoData := false, warnedNoOutputs := true }
    else
      let res := copyBroadcast s.outputs heap ref
      { state := { s with received_df := none }, heap := res.1,
        delivered := res.2, warnedNoData := false, warnedNoOutputs := false }

/-- `Copy.sink` lines 289-298: stores the received frame reference and
immediately calls `pump`. -/
def CopyState.sink (s : CopyState) (heap : List Table) (ref : Nat) : CopyStepResult :=
  CopyState.pump { s with received_df := some ref } heap

/-- Value of column `field` in a row, `nullV` when the column is absent. -/
def fieldVal (cols : List String) (field : String) (r : List Value) : Value :=
  match cols.indexOf? field with
  | some i => r.getD i Value.nullV
  | none => Value.nullV

/-- Helper for pandas `Series.unique`: first-occurrence-ordered distinct
elements, with `seen` the values already emitted. -/
def firstOccAux (seen : List Value) : List Value → List Value
  | [] => []
  | v :: vs => if v ∈ seen then firstOccAux seen vs else v :: firstOccAux (v :: seen) vs

/-- pandas `Series.unique`: distinct values in first-occurrence order. -/
def firstOcc (l : List Value) : List Value :=
  firstOccAux [] l

/-- Python `isinstance(x, (str, int))`. -/
def isStrOrInt : Value → Bool
  | .intV _ => true
  | .strV _ => true
  | _ => false

/-- Predicate of the Switcher's type check,
`not isinstance(x, (str, int)) and pd.notna(x)`: true for the scalars the
check flags as invalid (neither string nor integer, and not NaN). -/
def isInvalidFieldValue : Value → Bool
  | .otherV _ => true
  | _ => false

/-- Switcher from `common.py` lines 103-202.  The routing `mapping` is a
dict from scalar value to output pipe name; `fail_on_unmatch` is the strict
flag. -/
structure SwitcherState where
  name : String
  field : String
  mapping : List (Value × String)
  fail_on_unmatch : Bool
  inputs : List (String × Nat)
  outputs : List (String × Nat)
  received_df : Option Table
deriving DecidableEq, Repr

/-- `Switcher.__init__` lines 104-115: validates that every mapping key is a
string or an integer, raising `ValueError` otherwise. -/
def SwitcherState.mkNew (name : String) (field : String)
    (mapping : List (Value × String)) (fail_on_unmatch : Bool) :
    Except PyError SwitcherState :=
  if mapping.any (fun p => ¬ isStrOrInt p.1) then
    .error (.valueError ("Switcher " ++ name ++ ": mapping key must be string or integer"))
  else
    .ok { name := name, field := field, mapping := mapping,
          fail_on_unmatch := fail_on_unmatch, inputs := [], outputs := [],
          received_df := none }

/-- `Switcher.add_input_pipe`: one input allowed, `ValueError` on a second. -/
def SwitcherState.add_input_pipe (s : SwitcherState) (pipeName : String) (pid : Nat) :
    Except PyError SwitcherState :=
  if s.inputs.length = 0 then .ok { s with inputs := dictInsert pipeName pid s.inputs }
  else .error (.valueError ("Switcher " ++ s.name ++ " can only have 1 input"))

/-- `Switcher.add_output_pipe` lines 124-128: unrestricted dict store. -/
def SwitcherState.add_output_pipe (s : SwitcherState) (pipeName : String) (pid : Nat) :
    SwitcherState :=
  { s with outputs := dictInsert pipeName pid s.outputs }

/-- Partition of the routed batch: the partitions forwarded, as (target pipe
name, rows) in routing order, and the partitions dropped (unmatched value or
matched value whose target pipe is not attached), in routing order. -/
structure RoutedPartitions where
  forwarded : List (String × List (List Value))
  dropped : List (List (List Value))
deriving DecidableEq, Repr

/-- Loop body of `Switcher.pump` lines 164-188, one iteration per distinct
non-null value in first-occurrence order.  The rows equal to the value are
forwarded when the value is a mapping key whose target pipe is attached;
otherwise, in strict mode the loop raises `ValueError` at the first
offending value, and in lenient mode the partition is logged and dropped. -/
def routeValues (s : SwitcherState) (df : Table) :
    List Value → Except PyError RoutedPartitions
  | [] => .ok { forwarded := [], dropped := [] }
  | v :: vs =>
    let part := df.rows.filter (fun r => fieldVal df.cols s.field r = v)
    match dictLookup v s.mapping with
    | some target =>
      if s.outputs.any (fun p => p.1 = target) then
        match routeValues s df vs with
        | .error e => .error e
        | .ok res => .ok { res with forwarded := (target, part) :: res.forwarded }
      else if s.fail_on_unmatch then
        .error (.valueError ("Switcher " ++ s.name ++ ": target pipe not found in outputs"))
      else
        match routeValues s df vs with
        | .error e => .error e
        | .ok res => .ok { res with dropped := part :: res.dropped }
    | none =>
      if s.fail_on_unmatch then
        .error (.valueError ("Switcher " ++ s.name ++ ": no mapping found for value"))
      else
        match routeValues s df vs with
        | .error e => .error e
        | .ok res => .ok { res with dropped := part :: res.dropped }

/-- Observable outcome of a successful `Switcher.pump`: state afterwards,
the forwarded and dropped partitions, the rows dropped (or, in strict mode,
raised on) for a NaN field value, and whether the no-data warning fired. -/
structure SwitcherStepResult where
  state : SwitcherState
  parts : RoutedPartitions
  droppedNull : List (List Value)
  warnedNoData : Bool
deriving DecidableEq, Repr

/-- `Switcher.pump` lines 152-202: warn-and-return without a stored frame;
otherwise route each distinct non-null value of the switch field, then
handle the NaN rows (strict raise or lenient drop), then clear
`received_df`. -/
def SwitcherState.pump (s : SwitcherState) : Except PyError SwitcherStepResult :=
  match s.received_df with
  | none =>
    .ok { state := s, parts := { forwarded := [], dropped := [] },
          droppedNull := [], warnedNoData := true }
  | some df =>
    let vals := df.rows.map (fieldVal df.cols s.field)
    let uniq := firstOcc (vals.filter (fun v => v ≠ Value.nullV))
    match routeValues s df uniq with
    | .error e => .error e
    | .ok res =>
      let nanRows := df.rows.filter (fun r => fieldVal df.cols s.field r = Value.nullV)
      if nanRows.length ≠ 0 ∧ s.fail_on_unmatch then
        .error (.valueError ("Switcher " ++ s.name ++ ": found rows with NaN values"))
      else
        .ok { state := { s with received_df := none }, parts := res,
              droppedNull := nanRows, warnedNoData := false }

/-- `Switcher.sink` lines 130-150: raise `ValueError` when the switch field
is missing from the frame, raise `ValueError` when some non-null field value
is neither string nor integer, otherwise store the frame and call `pump`
immediately. -/
def SwitcherState.sink (s : SwitcherState) (dp : DataPackage) :
    Except PyError SwitcherStepResult :=
  if ¬ dp.df.cols.contains s.field then
    .error (.valueError ("Switcher " ++ s.name ++ ": field " ++ s.field ++ " not found"))
  else if (dp.df.rows.map (fieldVal dp.df.cols s.field)).any isInvalidFieldValue then
    .error (.valueError ("Switcher " ++ s.name ++ ": field contains non-string/non-integer values"))
  else
    SwitcherState.pump { s with received_df := some dp.df }

/-- Output columns of `pd.merge(left, right, on=key)`: left columns then
right columns minus the key, with the suffixes `_x`/`_y` on non-key columns
present on both sides. -/
def mergeCols (lc rc : List String) (key : String) : List String :=
  (lc.map (fun c => if c ≠ key ∧ rc.contains c then c ++ "_x" else c)) ++
  ((rc.filter (fun c => c ≠ key)).map (fun c => if lc.contains c then c ++ "_y" else c))

/-- Row of a merged frame with the key column of the right side removed. -/
def dropKeyCol (cols : List String) (key : String) (r : List Value) : List Value :=
  match cols.indexOf? key with
  | some i => r.take i ++ r.drop (i + 1)
  | none => r

/-- pandas `pd.merge(left_df, right_df, on=key, how=join_type)` for the three
modes the Joiner accepts.  `inner`: one output row per (left row, right row)
pair agreeing on the key, in left-major order; `left`: additionally one
null-padded row for every unmatched left row; `right`: symmetric, in
right-major order, with unmatched right rows null-padded on the left columns
except the key. -/
def pdMerge (l r : Table) (key : String) (how : String) : Table :=
  let cols := mergeCols l.cols r.cols key
  let rows :=
    if how = "inner" then
      l.rows.flatMap (fun lr =>
        ((r.rows.filter (fun rr => fieldVal r.cols key rr = fieldVal l.cols key lr)).map
          (fun rr => lr ++ dropKeyCol r.cols key rr)))
    else if how = "left" then
      l.rows.flatMap (fun lr =>
        match r.rows.filter (fun rr => fieldVal r.cols key rr = fieldVal l.cols key lr) with
        | [] => [lr ++ (r.cols.filter (fun c => c ≠ key)).map (fun _ => Value.nullV)]
        | ms => ms.map (fun rr => lr ++ dropKeyCol r.cols key rr))
    else
      r.rows.flatMap (fun rr =>
        match l.rows.filter (fun lr => fieldVal l.cols key lr = fieldVal r.cols key rr) with
        | [] => [(l.cols.map (fun c =>
                   if c = key then fieldVal r.cols key rr else Value.nullV)) ++
                 dropKeyCol r.cols key rr]
        | ms => ms.map (fun lr => lr ++ dropKeyCol r.cols key rr))
  { cols := cols, rows := rows }

/-- Joiner from `common.py` lines 635-749: the two configured role names,
key column, join mode, the role buffer dict `received_dfs` and the
`received_inputs`/`expected_inputs` counters (`expected_inputs` is fixed at
2 by the constructor). -/
structure JoinerState where
  name : String
  left_pipe_name : String
  right_pipe_name : String
  key : String
  join_type : String
  received_dfs : List (String × Table)
  expected_inputs : Nat
  received_inputs : Nat
  inputs : List (String × Nat)
  outputs : List (String × Nat)
deriving DecidableEq, Repr

/-- `Joiner.__init__` lines 636-654: checks the join mode is one of
`left`/`right`/`inner` (raising `ValueError` otherwise), then checks the two
role names differ (raising `ValueError` when equal). -/
def JoinerState.mkNew (name left right key join_type : String) :
    Except PyError JoinerState :=
  if ¬ (["left", "right", "inner"].contains join_type) then
    .error (.valueError ("Joiner " ++ name ++ ": join_type " ++ join_type ++ " not supported"))
  else if left = right then
    .error (.valueError ("Joiner " ++ name ++ ": left and right pipe names must be different"))
  else
    .ok { name := name, left_pipe_name := left, right_pipe_name := right,
          key := key, join_type := join_type, received_dfs := [],
          expected_inputs := 2, received_inputs := 0, inputs := [], outputs := [] }

/-- `Joiner.add_input_pipe` lines 656-661: dict store while the dict has
fewer than 2 entries, `ValueError` afterwards; a same-named pipe replaces
the earlier one without growing the dict. -/
def JoinerState.add_input_pipe (s : JoinerState) (pipeName : String) (pid : Nat) :
    Except PyError JoinerState :=
  if s.inputs.length < 2 then .ok { s with inputs := dictInsert pipeName pid s.inputs }
  else .error (.valueError ("Joiner " ++ s.name ++ " can only have 2 inputs"))

/-- `Joiner.add_output_pipe`: one output allowed, `ValueError` on a second. -/
def JoinerState.add_output_pipe (s : JoinerState) (pipeName : String) (pid : Nat) :
    Except PyError JoinerState :=
  if s.outputs.length = 0 then .ok { s with outputs := dictInsert pipeName pid s.outputs }
  else .error (.valueError ("Joiner " ++ s.name ++ " can only have 1 output"))

/-- `Joiner.pump` lines 697-749: warn-and-return (without clearing anything)
when the role dict does not hold exactly 2 frames or no output is attached;
otherwise look the two roles up (a missing role raises), merge, forward the
result, and only then reset `received_dfs`/`received_inputs`.  Returns the
new state and the forwarded table, `none` on the warning paths. -/
def JoinerState.pump (s : JoinerState) : Except PyError (JoinerState × Option Table) :=
  if s.received_dfs.length ≠ 2 then .ok (s, none)
  else if s.outputs.length = 0 then .ok (s, none)
  else
    match dictLookup s.left_pipe_name s.received_dfs with
    | none =>
      .error (.valueError ("Joiner " ++ s.name ++ ": left DataFrame not received"))
    | some left_df =>
      match dictLookup s.right_pipe_name s.received_dfs with
      | none =>
        .error (.valueError ("Joiner " ++ s.name ++ ": right DataFrame not received"))
      | some right_df =>
        let result := pdMerge left_df right_df s.key s.join_type
        .ok ({ s with received_dfs := [], received_inputs := 0 }, some result)

/-- `Joiner.sink` lines 672-695: raise `ValueError` when the envelope's pipe
name is neither configured role, raise `ValueError` when the key column is
missing — both before the role buffer is touched; otherwise store the frame
under its role (overwriting any earlier frame of that role), increment
`received_inputs`, and call `pump` exactly when the counter reaches
`expected_inputs`. -/
def JoinerState.sink (s : JoinerState) (dp : DataPackage) :
    Except PyError (JoinerState × Option Table) :=
  if ¬ (dp.pipe_name = s.left_pipe_name ∨ dp.pipe_name = s.right_pipe_name) then
    .error (.valueError ("Joiner " ++ s.name ++ ": unexpected pipe " ++ dp.pipe_name))
  else if ¬ dp.df.cols.contains s.key then
    .error (.valueError ("Joiner " ++ s.name ++ ": key field " ++ s.key ++ " not found"))
  else
    let s1 := { s with received_dfs := dictInsert dp.pipe_name dp.df s.received_dfs,
                       received_inputs := s.received_inputs + 1 }
    if s1.received_inputs = s1.expected_inputs then s1.pump
    else .ok (s1, none)

/-- Sum view of an `Except` value, used to derive decidable equality. -/
def exceptView {e a : Type} : Except e a → Sum e a
  | .error x => Sum.inl x
  | .ok x => Sum.inr x

instance {e a : Type} [DecidableEq e] [DecidableEq a] : DecidableEq (Except e a) :=
  fun x y => decidable_of_iff (exceptView x = exceptView y)
    (by cases x <;> cases y <;> simp [exceptView])

/-- Two-row single-column `number` frame used by the concrete scenarios. -/
def tNum : Table :=
  { cols := ["number"], rows := [[Value.intV 0], [Value.intV 1]] }

/-- Funnel that has one bound input (`expected_inputs = 1`) and one output,
exactly the state reached by `add_input_pipe`/`add_output_pipe` from a fresh
Funnel. -/
def funnelReady : FunnelState :=
  { name := "f", inputs := [("in", 0)], outputs := [("out", 1)], dfs := [],
    received_inputs := 0, expected_inputs := 1, combined_df := none }

/-- Fresh Funnel after attaching two input pipes that share the name `in`. -/
def funnelTwoSameName : FunnelState :=
  ((FunnelState.mkNew "f").add_input_pipe "in" 10).add_input_pipe "in" 11

/-- The same Funnel with an output pipe attached. -/
def funnelTwoSameOut : FunnelState :=
  { funnelTwoSameName with outputs := [("out", 1)] }

/-- Scenario C left frame: ids 1, 2, 3. -/
def tIdL : Table :=
  { cols := ["id", "a"],
    rows := [[Value.intV 1, Value.strV "x"], [Value.intV 2, Value.strV "y"],
             [Value.intV 3, Value.strV "z"]] }

/-- Scenario C right frame: ids 2, 3. -/
def tIdR : Table :=
  { cols := ["id", "b"],
    rows := [[Value.intV 2, Value.strV "p"], [Value.intV 3, Value.strV "q"]] }

/-- One-row id frame. -/
def tIdOne : Table := { cols := ["id"], rows := [[Value.intV 1]] }

/-- Another one-row id frame, with a different id. -/
def tIdNine : Table := { cols := ["id"], rows := [[Value.intV 9]] }

/-- Joiner configured with roles `L`/`R`, key `id`, mode `inner`, both input
pipes and the output pipe attached, no round in progress: the state reached
by `JoinerState.mkNew` plus the three attach calls. -/
def joinerLR : JoinerState :=
  { name := "j", left_pipe_name := "L", right_pipe_name := "R", key := "id",
    join_type := "inner", received_dfs := [], expected_inputs := 2,
    received_inputs := 0, inputs := [("L", 0), ("R", 1)], outputs := [("out", 2)] }

/-- Joiner exactly as constructed (no pipes attached yet). -/
def joinerFresh : JoinerState :=
  { name := "j", left_pipe_name := "L", right_pipe_name := "R", key := "id",
    join_type := "inner", received_dfs := [], expected_inputs := 2,
    received_inputs := 0, inputs := [], outputs := [] }

/-- `joinerLR` after one `sink` of `tIdOne` on role `L`. -/
def joinerAfterL1 : JoinerState :=
  { joinerLR with received_dfs := [("L", tIdOne)], received_inputs := 1 }

/-- `joinerAfterL1` after a second `sink` on role `L` (overwritten slot). -/
def joinerAfterL2 : JoinerState :=
  { joinerLR with received_dfs := [("L", tIdNine)], received_inputs := 2 }

/-- `joinerAfterL2` after the envelope on role `R` finally arrives. -/
def joinerAfterL2R : JoinerState :=
  { joinerLR with received_dfs := [("L", tIdNine), ("R", tIdNine)],
                  received_inputs := 3 }

/-- `joinerLR` after one `sink` of the Scenario C left frame on role `L`. -/
def joinerAfterL : JoinerState :=
  { joinerLR with received_dfs := [("L", tIdL)], received_inputs := 1 }

/-- Scenario B Switcher: field `number`, mapping `1 -> a`, `2 -> b`, lenient,
output pipes `a` and `b` attached. -/
def switcherB : SwitcherState :=
  { name := "sw", field := "number", fail_on_unmatch := false,
    mapping := [(Value.intV 1, "a"), (Value.intV 2, "b")],
    inputs := [("in", 0)], outputs := [("a", 1), ("b", 2)], received_df := none }

/-- Scenario B input: one `number` column holding 0, 1, 2, 3, 4. -/
def dfNumbers5 : Table :=
  { cols := ["number"],
    rows := [[Value.intV 0], [Value.intV 1], [Value.intV 2], [Value.intV 3],
             [Value.intV 4]] }

/-- Copy node with two output pipes attached. -/
def copyTwo : CopyState :=
  { name := "c", inputs := [("in", 0)], outputs := [("o1", 1), ("o2", 2)],
    received_df := none }

/-- Pipe already bound to consumer 5. -/
def pipeBound : Pipe := { name := "p", origin := none, destination := some 5 }

theorem any_key_dictInsert {κ α : Type} [DecidableEq κ] (k : κ) (v : α)
    (d : List (κ × α)) : (dictInsert k v d).any (fun p => p.1 = k) = true := by
  unfold dictInsert
  by_cases h : d.any (fun p => p.1 = k) = true
  · rw [if_pos h, List.any_map]
    rcases List.any_eq_true.mp h with ⟨p, hp, hpk⟩
    refine List.any_eq_true.mpr ⟨p, hp, ?_⟩
    simp only [Function.comp]
    split <;> simp_all
  · rw [if_neg h]
    simp

theorem dictLookup_dictInsert_self {κ α : Type} [DecidableEq κ] (k : κ) (v : α)
    (d : List (κ × α)) : dictLookup k (dictInsert k v d) = some v := by
  unfold dictInsert dictLookup
  by_cases h : d.any (fun p => p.1 = k) = true
  · simp only [h, if_true]
    induction d with
    | nil => simp at h
    | cons p d ih =>
      by_cases hp : p.1 = k
      · simp [hp, List.find?]
      · have h2 : d.any (fun q => q.1 = k) = true := by
          rcases List.any_eq_true.mp h with ⟨q, hq, hqk⟩
          rcases List.mem_cons.mp hq with hq1 | hq2
          · exact absurd (by simpa [hq1] using hqk) hp
          · exact List.any_eq_true.mpr ⟨q, hq2, hqk⟩
        simpa [List.find?, hp] using ih h2
  · rw [if_neg h]
    have h2 : ∀ p ∈ d, ((p.1 = k : Bool) = false) := by
      intro p hp
      by_contra hc
      exact h (List.any_eq_true.mpr ⟨p, hp, by simpa using hc⟩)
    rw [List.find?_append]
    have h3 : d.find? (fun p => p.1 = k) = none := List.find?_eq_none.mpr
      (by intro p hp; simpa using h2 p hp)
    simp [h3, List.find?]

theorem length_dictInsert_dictInsert_same {κ α : Type} [DecidableEq κ] (k : κ)
    (v1 v2 : α) (d : List (κ × α)) :
    (dictInsert k v2 (dictInsert k v1 d)).length = (dictInsert k v2 d).length := by
  have hany := any_key_dictInsert k v1 d
  unfold dictInsert
  by_cases h : d.any (fun p => p.1 = k) = true
  · rw [if_pos h, if_pos (by simpa [dictInsert, h] using hany)]
    simp [h]
  · rw [if_neg h, if_pos (by simpa [dictInsert, h] using hany)]
    simp [h]

theorem pdConcat_rows_length (ts : List Table) :
    (pdConcat ts).rows.length = (ts.map (fun t => t.rows.length)).sum := by
  unfold pdConcat
  simp only [List.length_flatten, List.map_map]
  congr 1
  refine List.map_congr_left ?_
  intro t _
  simp [Table.reindex, Function.comp]

theorem countP_eq_sum_indicator {α : Type} (p : α → Bool) (l : List α) :
    l.countP p = (l.map (fun a => if p a then 1 else 0)).sum := by
  induction l with
  | nil => simp
  | cons a l ih => simp [List.countP_cons, ih, Nat.add_comm]

theorem nodup_countP_indicator {α : Type} [DecidableEq α] (x : α) (vs : List α)
    (hnd : vs.Nodup) :
    vs.countP (fun v => x = v) = if x ∈ vs then 1 else 0 := by
  induction vs with
  | nil => simp
  | cons v vs ih =>
    rcases List.nodup_cons.mp hnd with ⟨hv, hnd2⟩
    by_cases hx : x = v
    · subst hx
      simp [List.countP_cons, ih hnd2, hv]
    · simp [List.countP_cons, ih hnd2, hx, List.mem_cons]

theorem sum_countP_swap {α β : Type} (f : α → β) (vs : List β) (p : β → β → Bool) :
    ∀ l : List α,
      (vs.map (fun v => l.countP (fun x => p (f x) v))).sum =
      (l.map (fun x => vs.countP (fun v => p (f x) v))).sum := by
  intro l
  induction l with
  | nil => simp [List.countP_nil]
  | cons x l ih =>
    simp only [List.countP_cons, List.map_cons, List.sum_cons]
    rw [List.sum_map_add, ih, countP_eq_sum_indicator (fun v => p (f x) v) vs]
    ring

theorem mem_firstOccAux (v : Value) :
    ∀ (l seen : List Value), v ∈ firstOccAux seen l ↔ v ∈ l ∧ v ∉ seen := by
  intro l
  induction l with
  | nil => simp [firstOccAux]
  | cons w l ih =>
    intro seen
    by_cases hw : w ∈ seen
    · rw [firstOccAux, if_pos hw, ih seen]
      constructor
      · rintro ⟨h1, h2⟩
        exact ⟨List.mem_cons_of_mem w h1, h2⟩
      · rintro ⟨h1, h2⟩
        rcases List.mem_cons.mp h1 with h3 | h3
        · exact absurd (h3 ▸ hw) h2
        · exact ⟨h3, h2⟩
    · rw [firstOccAux, if_neg hw]
      by_cases hv : v = w
      · subst hv
        simp [hw]
      · constructor
        · intro h1
          rcases List.mem_cons.mp h1 with h3 | h3
          · exact absurd h3 hv
          · rcases (ih (w :: seen)).mp h3 with ⟨h4, h5⟩
            exact ⟨List.mem_cons_of_mem w h4,
              fun hc => h5 (List.mem_cons_of_mem w hc)⟩
        · rintro ⟨h1, h2⟩
          rcases List.mem_cons.mp h1 with h3 | h3
          · exact absurd h3 hv
          · refine List.mem_cons_of_mem w ((ih (w :: seen)).mpr ⟨h3, ?_⟩)
            intro hc
            rcases List.mem_cons.mp hc with h4 | h4
            · exact hv h4
            · exact h2 h4

theorem nodup_firstOccAux :
    ∀ (l seen : List Value), (firstOccAux seen l).Nodup := by
  intro l
  induction l with
  | nil => simp [firstOccAux]
  | cons w l ih =>
    intro seen
    by_cases hw : w ∈ seen
    · rw [firstOccAux, if_pos hw]
      exact ih seen
    · rw [firstOccAux, if_neg hw]
      refine List.nodup_cons.mpr ⟨?_, ih (w :: seen)⟩
      intro hc
      exact ((mem_firstOccAux w l (w :: seen)).mp hc).2 (List.mem_cons_self w seen)

theorem mem_firstOcc (v : Value) (l : List Value) : v ∈ firstOcc l ↔ v ∈ l := by
  rw [firstOcc, mem_firstOccAux]
  simp

theorem nodup_firstOcc (l : List Value) : (firstOcc l).Nodup :=
  nodup_firstOccAux l []

theorem routeValues_spec (s : SwitcherState) (df : Table)
    (hstrict : s.fail_on_unmatch = false) :
    ∀ vs : List Value, ∃ rp : RoutedPartitions,
      routeValues s df vs = .ok rp ∧
      (∀ r : List Value,
        (rp.forwarded.map Prod.snd).countP (fun part => decide (r ∈ part)) +
          rp.dropped.countP (fun part => decide (r ∈ part)) =
          vs.countP (fun v =>
            decide (r ∈ df.rows.filter (fun row => fieldVal df.cols s.field row = v)))) ∧
      (((rp.forwarded.map Prod.snd).map List.length).sum +
          (rp.dropped.map List.length).sum =
        (vs.map (fun v =>
          (df.rows.filter (fun row => fieldVal df.cols s.field row = v)).length)).sum) := by
  intro vs
  induction vs with
  | nil => exact ⟨{ forwarded := [], dropped := [] }, rfl, by simp, by simp⟩
  | cons v vs ih =>
    rcases ih with ⟨rp, heq, hcount, hlen⟩
    cases hm : dictLookup v s.mapping with
    | some target =>
      by_cases ho : s.outputs.any (fun p => p.1 = target) = true
      · refine ⟨{ rp with forwarded :=
          (target, df.rows.filter (fun row => fieldVal df.cols s.field row = v)) ::
            rp.forwarded }, ?_, ?_, ?_⟩
        · simp only [routeValues, hm, ho, if_true, heq]
        · intro r
          have hc := hcount r
          simp only [List.map_cons, List.countP_cons]
          omega
        · have hl := hlen
          simp only [List.map_cons, List.sum_cons]
          omega
      · refine ⟨{ rp with dropped :=
          (df.rows.filter (fun row => fieldVal df.cols s.field row = v)) ::
            rp.dropped }, ?_, ?_, ?_⟩
        · simp only [routeValues, hm, ho, hstrict, heq]
          simp
        · intro r
          have hc := hcount r
          simp only [List.map_cons, List.countP_cons]
          omega
        · have hl := hlen
          simp only [List.map_cons, List.sum_cons]
          omega
    | none =>
      refine ⟨{ rp with dropped :=
        (df.rows.filter (fun row => fieldVal df.cols s.field row = v)) ::
          rp.dropped }, ?_, ?_, ?_⟩
      · simp only [routeValues, hm, hstrict, heq]
        simp
      · intro r
        have hc := hcount r
        simp only [List.map_cons, List.countP_cons]
        omega
      · have hl := hlen
        simp only [List.map_cons, List.sum_cons]
        omega

theorem copyBroadcast_fst_extends (outputs : List (String × Nat)) :
    ∀ heap ref, ∃ ext, (copyBroadcast outputs heap ref).1 = heap ++ ext := by
  induction outputs with
  | nil =>
    intro heap ref
    exact ⟨[], by simp [copyBroadcast]⟩
  | cons o rest ih =>
    intro heap ref
    rcases ih (heap ++ [heap.getD ref { cols := [], rows := [] }]) ref with ⟨ext, hext⟩
    refine ⟨[heap.getD ref { cols := [], rows := [] }] ++ ext, ?_⟩
    simp only [copyBroadcast, hext]
    simp

theorem copyBroadcast_spec (outputs : List (String × Nat)) :
    ∀ heap ref, ref < heap.length →
      ((copyBroadcast outputs heap ref).2.map Prod.fst = outputs.map Prod.fst) ∧
      ((copyBroadcast outputs heap ref).2.map Prod.snd =
        List.range' heap.length outputs.length) ∧
      (∀ pr ∈ (copyBroadcast outputs heap ref).2,
        (copyBroadcast outputs heap ref).1.getD pr.2 { cols := [], rows := [] } =
          heap.getD ref { cols := [], rows := [] }) := by
  induction outputs with
  | nil =>
    intro heap ref h
    exact ⟨rfl, rfl, by simp [copyBroadcast]⟩
  | cons o rest ih =>
    intro heap ref h
    have h1 : ref < (heap ++ [heap.getD ref { cols := [], rows := [] }]).length := by
      simp
      omega
    rcases ih (heap ++ [heap.getD ref { cols := [], rows := [] }]) ref h1 with
      ⟨ihfst, ihsnd, ihcontent⟩
    rcases copyBroadcast_fst_extends rest
      (heap ++ [heap.getD ref { cols := [], rows := [] }]) ref with ⟨ext, hext⟩
    refine ⟨?_, ?_, ?_⟩
    · simp only [copyBroadcast, List.map_cons, ihfst]
    · simp only [copyBroadcast, List.map_cons, ihsnd, List.length_cons,
        List.range'_succ]
      simp
    · intro pr hpr
      simp only [copyBroadcast, List.mem_cons] at hpr
      rcases hpr with hpr | hpr
      · subst hpr
        simp only [copyBroadcast]
        rw [hext, List.getD_eq_getElem?_getD,
          List.getElem?_append_left (by simp),
          List.getElem?_append_right (le_refl heap.length)]
        simp [List.getD_eq_getElem?_getD]
      · have := ihcontent pr hpr
        simp only [copyBroadcast]
        rw [this, List.getD_append _ _ _ _ h]

/-- C6, counterexample.  The claim says a second bind on an already-bound
channel fails with a ConfigurationError; in the code `Pipe.set_destination`
on a pipe that is already bound (to consumer 5) succeeds and silently
rebinds the pipe to the new consumer. -/
theorem pipe_second_bind_succeeds_counterexample :
    Pipe.set_destination pipeBound 9 =
      .ok ({ name := "p", origin := none, destination := some 9 }, 9) := by
  decide

/-- C6, amended.  `Pipe.set_destination` always succeeds: it overwrites
`destination` with the new consumer and registers the pipe with that
consumer via `add_input_pipe`, whether or not the pipe was already bound;
no ConfigurationError (or any error) is raised and the previous binding is
lost. -/
theorem pipe_set_destination_always_rebinds (p : Pipe) (dest : Nat) :
    p.set_destination dest = .ok ({ p with destination := some dest }, dest) :=
  rfl

/-- C7, counterexample.  The claim says calling `flow` on an unbound channel
fails with `ConfigurationError("channel not connected")`; in the code the
body `self.destination.sink(...)` hits `None.sink` and raises
`AttributeError` — the engine defines no ConfigurationError class and
performs no bound-check. -/
theorem pipe_flow_unbound_attribute_error_counterexample :
    (Pipe.mkNew "p").flow tNum =
      .error (.attributeError "NoneType object has no attribute sink") := by
  decide

/-- C7, amended.  `Pipe.flow` on an unbound channel raises `AttributeError`
(from the `None.sink` attribute access), not a ConfigurationError; on a
bound channel it builds a fresh DataPackage tagging the channel's own name
as origin and synchronously hands it to the bound consumer's `sink`. -/
theorem pipe_flow_behavior (p : Pipe) (df : Table) :
    (p.destination = none →
      p.flow df = .error (.attributeError "NoneType object has no attribute sink")) ∧
    (∀ d : Nat, p.destination = some d →
      p.flow df = .ok (d, { pipe_name := p.name, df := df })) := by
  constructor
  · intro h
    simp [Pipe.flow, h]
  · intro d h
    simp [Pipe.flow, h]

/-- C7, witness for `pipe_flow_behavior`: the bound pipe `pipeBound`
delivers the envelope `{ pipe_name := "p", df := tNum }` to consumer 5. -/
theorem pipe_flow_behavior_witness :
    pipeBound.destination = some 5 ∧
    pipeBound.flow tNum = .ok (5, { pipe_name := "p", df := tNum }) :=
  ⟨rfl, (pipe_flow_behavior pipeBound tNum).2 5 rfl⟩

/-- C8, counterexample.  The claim says every producer's `pump()` with no
output attached is a soft logged no-op; a fresh Generator has an empty
outputs dict and its `pump` raises `IndexError` on
`list(self.outputs.keys())[0]`. -/
theorem generator_pump_no_output_raises_counterexample :
    (GeneratorState.mkNew "g" 3).pump =
      .error (.indexError "list index out of range") := by
  decide

/-- C8, amended.  With no output channel attached, `Funnel.pump` forwards
nothing and raises nothing, `Copy.pump` delivers nothing, keeps the heap and
only warns, and `Switcher.pump` with no stored frame is a warning no-op —
but `Generator.pump` raises `IndexError` when its outputs registry is
empty. -/
theorem pump_without_outputs_behavior :
    (∀ g : GeneratorState, g.outputs = [] →
      g.pump = .error (.indexError "list index out of range")) ∧
    (∀ s : FunnelState, s.outputs = [] → s.pump = none) ∧
    (∀ (s : CopyState) (heap : List Table), s.outputs = [] →
      (s.pump heap).delivered = [] ∧ (s.pump heap).heap = heap ∧
      ((s.pump heap).warnedNoData = true ∨ (s.pump heap).warnedNoOutputs = true)) ∧
    (∀ s : SwitcherState, s.received_df = none →
      s.pump = .ok { state := s, parts := { forwarded := [], dropped := [] },
                     droppedNull := [], warnedNoData := true }) := by
  refine ⟨?_, ?_, ?_, ?_⟩
  · intro g h
    simp [GeneratorState.pump, h]
  · intro s h
    cases hc : s.combined_df with
    | none => simp [FunnelState.pump, hc]
    | some c => simp [FunnelState.pump, hc, h]
  · intro s heap h
    cases hr : s.received_df with
    | none => simp [CopyState.pump, hr]
    | some ref => simp [CopyState.pump, hr, h]
  · intro s h
    simp [SwitcherState.pump, h]

/-- C8, witness for `pump_without_outputs_behavior`: a fresh Generator, a
fresh Funnel, a fresh Copy over an empty heap and a fresh (lenient) Switcher
all have empty outputs and no stored data, and behave as stated. -/
theorem pump_without_outputs_behavior_witness :
    ((GeneratorState.mkNew "g" 3).outputs = [] ∧
      (GeneratorState.mkNew "g" 3).pump = .error (.indexError "list index out of range")) ∧
    ((FunnelState.mkNew "f").outputs = [] ∧ (FunnelState.mkNew "f").pump = none) ∧
    ((CopyState.mkNew "c").outputs = [] ∧
      ((CopyState.mkNew "c").pump []).delivered = [] ∧
      ((CopyState.mkNew "c").pump []).heap = [] ∧
      (((CopyState.mkNew "c").pump []).warnedNoData = true ∨
        ((CopyState.mkNew "c").pump []).warnedNoOutputs = true)) ∧
    (switcherB.received_df = none ∧
      switcherB.pump =
        .ok { state := switcherB, parts := { forwarded := [], dropped := [] },
              droppedNull := [], warnedNoData := true }) :=
  ⟨⟨rfl, pump_without_outputs_behavior.1 (GeneratorState.mkNew "g" 3) rfl⟩,
   ⟨rfl, pump_without_outputs_behavior.2.1 (FunnelState.mkNew "f") rfl⟩,
   ⟨rfl, pump_without_outputs_behavior.2.2.1 (CopyState.mkNew "c") [] rfl⟩,
   ⟨rfl, pump_without_outputs_behavior.2.2.2 switcherB rfl⟩⟩

/-- C9.  Constructing a Joiner with equal role names raises (the code checks
the join mode first, so the message can differ, but every construction with
equal role names errors); `Joiner.sink` raises `ValueError` when the
envelope's pipe name is neither configured role, and raises `ValueError`
when the key column is absent — both checks precede the role-buffer store,
which the embedding reflects by returning an error and no successor state.
The spec's ConfigurationError/ValidationError are its taxonomy names for
these construction-time/receive-time `ValueError` raises. -/
theorem joiner_construction_and_sink_validation
    (name l r key jt : String) (s : JoinerState) (dp : DataPackage) :
    (l = r → ∃ msg, JoinerState.mkNew name l r key jt = .error (.valueError msg)) ∧
    ((¬ (dp.pipe_name = s.left_pipe_name ∨ dp.pipe_name = s.right_pipe_name)) →
      s.sink dp = .error (.valueError
        ("Joiner " ++ s.name ++ ": unexpected pipe " ++ dp.pipe_name))) ∧
    ((dp.pipe_name = s.left_pipe_name ∨ dp.pipe_name = s.right_pipe_name) →
      dp.df.cols.contains s.key = false →
      s.sink dp = .error (.valueError
        ("Joiner " ++ s.name ++ ": key field " ++ s.key ++ " not found"))) := by
  refine ⟨?_, ?_, ?_⟩
  · intro h
    subst h
    by_cases hjt : (["left", "right", "inner"].contains jt) = true
    · refine ⟨"Joiner " ++ name ++ ": left and right pipe names must be different", ?_⟩
      rw [JoinerState.mkNew, if_neg (not_not_intro hjt), if_pos rfl]
    · refine ⟨"Joiner " ++ name ++ ": join_type " ++ jt ++ " not supported", ?_⟩
      rw [JoinerState.mkNew, if_pos hjt]
  · intro h
    simp [JoinerState.sink, h]
  · intro h hkey
    rw [JoinerState.sink, if_neg (by simp [h]), if_pos (by simpa using hkey)]

/-- C9, witness for `joiner_construction_and_sink_validation`: equal role
names `L`/`L` error at construction, an envelope from pipe `X` errors, and
an envelope on role `L` whose frame lacks the `id` column errors. -/
theorem joiner_validation_witness :
    (∃ msg, JoinerState.mkNew "j" "L" "L" "id" "inner" = .error (.valueError msg)) ∧
    (joinerLR.sink { pipe_name := "X", df := tIdOne } =
      .error (.valueError "Joiner j: unexpected pipe X")) ∧
    (joinerLR.sink { pipe_name := "L", df := tNum } =
      .error (.valueError "Joiner j: key field id not found")) :=
  ⟨(joiner_construction_and_sink_validation "j" "L" "L" "id" "inner" joinerLR
      { pipe_name := "X", df := tIdOne }).1 rfl,
   (joiner_construction_and_sink_validation "j" "L" "L" "id" "inner" joinerLR
      { pipe_name := "X", df := tIdOne }).2.1 (by decide),
   (joiner_construction_and_sink_validation "j" "L" "L" "id" "inner" joinerLR
      { pipe_name := "L", df := tNum }).2.2 (by decide) (by decide)⟩

/-- C1, counterexample.  The claim says that after a completed round the
Funnel's buffer is cleared and `receivedCount` reset to 0.  A Funnel bound
to one input and one output completes a round on one `sink`: it does merge
and emit, but afterwards the buffer still holds the received frame,
`received_inputs` is still 1 and `combined_df` is set — nothing is reset,
so the state is not indistinguishable from the just-constructed state. -/
theorem funnel_no_reset_counterexample :
    ((FunnelState.mkNew "f").add_input_pipe "in" 0).add_output_pipe "out" 1 =
      .ok funnelReady ∧
    (funnelReady.sink { pipe_name := "in", df := tNum }).merged = true ∧
    (funnelReady.sink { pipe_name := "in", df := tNum }).emitted = some tNum ∧
    (funnelReady.sink { pipe_name := "in", df := tNum }).state.dfs = [tNum] ∧
    (funnelReady.sink { pipe_name := "in", df := tNum }).state.received_inputs = 1 ∧
    (funnelReady.sink { pipe_name := "in", df := tNum }).state.combined_df = some tNum := by
  decide

/-- C1, amended.  `Funnel.sink`/`merge_and_pump` perform no reset at all:
on the sink call that completes a round (the new count equals
`expected_inputs`) the merge runs and the state afterwards keeps the whole
buffer (now including the last frame), keeps the incremented
`received_inputs`, and stores the merged frame in `combined_df`.  Only the
Joiner re-arms; the Funnel does not. -/
theorem funnel_completed_round_state (s : FunnelState) (dp : DataPackage)
    (h : s.received_inputs + 1 = s.expected_inputs) :
    (s.sink dp).merged = true ∧
    (s.sink dp).state =
      { s with dfs := s.dfs ++ [dp.df],
               received_inputs := s.received_inputs + 1,
               combined_df := some (pdConcat (s.dfs ++ [dp.df])) } := by
  rw [FunnelState.sink]
  simp only [h, if_true]
  rw [FunnelState.merge_and_pump]
  simp

/-- C1, witness for `funnel_completed_round_state`: the one-input Funnel
`funnelReady` completes its round on a single delivery of `tNum`. -/
theorem funnel_completed_round_state_witness :
    (funnelReady.received_inputs + 1 = funnelReady.expected_inputs) ∧
    ((funnelReady.sink { pipe_name := "in", df := tNum }).merged = true ∧
      (funnelReady.sink { pipe_name := "in", df := tNum }).state =
        { funnelReady with
            dfs := funnelReady.dfs ++ [tNum],
            received_inputs := funnelReady.received_inputs + 1,
            combined_df := some (pdConcat (funnelReady.dfs ++ [tNum])) }) :=
  ⟨by decide, funnel_completed_round_state funnelReady { pipe_name := "in", df := tNum }
    (by decide)⟩

/-- C2.  `Funnel.sink` runs the merge exactly when the incremented count
equals `expected_inputs`, and with a smaller (or larger) count it only
buffers — no emission, no warning, no merge.  When the merge fires and an
output is attached, the emitted table is the concatenation of the buffered
frames in the order received, its row count is the sum of the buffered row
counts, and the emitted value is this concatenation unconditionally — a
column mismatch among the buffered frames only adds indices to the printed
warnings, never blocks the merge (the emission equation carries no
hypothesis about the column sets). -/
theorem funnel_merge_trigger_and_completeness (s : FunnelState) (dp : DataPackage) :
    ((s.sink dp).merged = true ↔ s.received_inputs + 1 = s.expected_inputs) ∧
    (s.received_inputs + 1 ≠ s.expected_inputs →
      s.sink dp =
        { state := { s with dfs := s.dfs ++ [dp.df],
                            received_inputs := s.received_inputs + 1 },
          emitted := none, warnings := [], merged := false }) ∧
    (s.received_inputs + 1 = s.expected_inputs → s.outputs.length > 0 →
      (s.sink dp).emitted = some (pdConcat (s.dfs ++ [dp.df])) ∧
      (s.sink dp).warnings = funnelColumnWarnings (s.dfs ++ [dp.df]) ∧
      (pdConcat (s.dfs ++ [dp.df])).rows.length =
        ((s.dfs ++ [dp.df]).map (fun t => t.rows.length)).sum) := by
  refine ⟨?_, ?_, ?_⟩
  · constructor
    · intro hm
      by_contra hne
      rw [FunnelState.sink] at hm
      simp only [hne, if_false] at hm
      simp at hm
    · intro h
      rw [FunnelState.sink]
      simp only [h, if_true]
      rw [FunnelState.merge_and_pump]
      simp
  · intro hne
    rw [FunnelState.sink]
    simp only [hne, if_false]
  · intro h hout
    rw [FunnelState.sink]
    simp only [h, if_true]
    rw [FunnelState.merge_and_pump]
    simp only [List.length_append, List.length_cons]
    refine ⟨?_, ?_, pdConcat_rows_length _⟩
    · simp [FunnelState.pump, hout]
    · simp

/-- C2, witness for `funnel_merge_trigger_and_completeness`: on
`funnelReady` one delivery fires the merge, emits the concatenation of the
single-frame buffer and reports its row count as the sum. -/
theorem funnel_merge_trigger_witness :
    (funnelReady.received_inputs + 1 = funnelReady.expected_inputs ∧
      funnelReady.outputs.length > 0) ∧
    ((funnelReady.sink { pipe_name := "in", df := tNum }).emitted =
        some (pdConcat (funnelReady.dfs ++ [tNum])) ∧
      (funnelReady.sink { pipe_name := "in", df := tNum }).warnings =
        funnelColumnWarnings (funnelReady.dfs ++ [tNum]) ∧
      (pdConcat (funnelReady.dfs ++ [tNum])).rows.length =
        ((funnelReady.dfs ++ [tNum]).map (fun t => t.rows.length)).sum) :=
  ⟨⟨by decide, by decide⟩,
    (funnel_merge_trigger_and_completeness funnelReady
      { pipe_name := "in", df := tNum }).2.2 (by decide) (by decide)⟩

/-- C5.  `Copy.sink` forwards to every attached output channel, in
attachment (dict insertion) order, a freshly allocated copy of the input
frame: the delivered pipe names are exactly the outputs in order, every
delivered reference holds contents equal to the input frame and is a new
object (distinct from the input reference and from every other delivered
reference), mutating the object behind one delivered reference leaves every
other delivered reference unchanged, and with zero outputs attached the call
delivers nothing, keeps the heap, sets the no-outputs warning and — being
total — raises no error. -/
theorem copy_sink_independent_copies (s : CopyState) (heap : List Table)
    (ref : Nat) (h : ref < heap.length) :
    ((s.sink heap ref).delivered.map Prod.fst = s.outputs.map Prod.fst) ∧
    ((s.sink heap ref).delivered.map Prod.snd).Nodup ∧
    (∀ pr ∈ (s.sink heap ref).delivered,
      (s.sink heap ref).heap.getD pr.2 { cols := [], rows := [] } =
        heap.getD ref { cols := [], rows := [] } ∧ pr.2 ≠ ref) ∧
    (∀ pr ∈ (s.sink heap ref).delivered, ∀ qr ∈ (s.sink heap ref).delivered,
      pr.2 ≠ qr.2 → ∀ t : Table,
        ((s.sink heap ref).heap.set pr.2 t).getD qr.2 { cols := [], rows := [] } =
          (s.sink heap ref).heap.getD qr.2 { cols := [], rows := [] }) ∧
    (s.outputs = [] →
      (s.sink heap ref).delivered = [] ∧ (s.sink heap ref).heap = heap ∧
      (s.sink heap ref).warnedNoOutputs = true) := by
  have hset : ∀ (l : List Table) (i j : Nat), i ≠ j → ∀ t : Table,
      (l.set i t).getD j { cols := [], rows := [] } =
        l.getD j { cols := [], rows := [] } := by
    intro l i j hij t
    rw [List.getD_eq_getElem?_getD, List.getD_eq_getElem?_getD,
      List.getElem?_set_ne hij]
  by_cases ho : s.outputs.length = 0
  · have ho2 : s.outputs = [] := List.length_eq_zero.mp ho
    rw [CopyState.sink, CopyState.pump]
    simp only [ho, if_pos rfl]
    refine ⟨by simp [ho2], by simp, by simp, by simp, ?_⟩
    intro _
    exact ⟨rfl, rfl, rfl⟩
  · rcases copyBroadcast_spec s.outputs heap ref h with ⟨hfst, hsnd, hcontent⟩
    have hres : s.sink heap ref =
        { state := { s with received_df := none },
          heap := (copyBroadcast s.outputs heap ref).1,
          delivered := (copyBroadcast s.outputs heap ref).2,
          warnedNoData := false, warnedNoOutputs := false } := by
      rw [CopyState.sink, CopyState.pump]
      simp [ho]
    rw [hres]
    refine ⟨hfst, ?_, ?_, ?_, ?_⟩
    · rw [hsnd]
      exact List.nodup_range' _ _
    · intro pr hpr
      refine ⟨hcontent pr hpr, ?_⟩
      have hmem : pr.2 ∈ (copyBroadcast s.outputs heap ref).2.map Prod.snd :=
        List.mem_map_of_mem Prod.snd hpr
      rw [hsnd] at hmem
      have := (List.mem_range'_1.mp hmem).1
      omega
    · intro pr _ qr _ hij t
      exact hset _ _ _ hij t
    · intro hout
      exact absurd (by simp [hout]) ho

/-- C5, witness for `copy_sink_independent_copies`: the two-output Copy node
over a one-table heap delivers fresh references 1 and 2 (both distinct from
the input reference 0) on pipes `o1` and `o2`, in attachment order. -/
theorem copy_sink_independent_copies_witness :
    (0 < [tNum].length) ∧
    ((copyTwo.sink [tNum] 0).delivered.map Prod.fst =
      copyTwo.outputs.map Prod.fst) ∧
    (copyTwo.sink [tNum] 0).delivered = [("o1", 1), ("o2", 2)] ∧
    (copyTwo.sink [tNum] 0).heap = [tNum, tNum, tNum] :=
  ⟨by decide, (copy_sink_independent_copies copyTwo [tNum] 0 (by decide)).1,
   by decide, by decide⟩

/-- C10, counterexample.  The claim ends with: after attaching two
same-named input pipes a round can never complete.  On such a Funnel
(`expected_inputs = 2`, one stored pipe) the first delivery indeed does not
fire, but the merge does fire on the second `sink` call — e.g. the surviving
pipe delivering again (the Funnel never resets, so the counter just keeps
rising to `expected_inputs`) — so the round does complete. -/
theorem funnel_same_name_round_completes_counterexample :
    funnelTwoSameName.inputs = [("in", 11)] ∧
    funnelTwoSameName.expected_inputs = 2 ∧
    (funnelTwoSameOut.sink { pipe_name := "in", df := tNum }).merged = false ∧
    ((funnelTwoSameOut.sink { pipe_name := "in", df := tNum }).state.sink
      { pipe_name := "in", df := tNum }).merged = true ∧
    ((funnelTwoSameOut.sink { pipe_name := "in", df := tNum }).state.sink
      { pipe_name := "in", df := tNum }).emitted =
      some { cols := ["number"],
             rows := [[Value.intV 0], [Value.intV 1], [Value.intV 0], [Value.intV 1]] } := by
  decide

/-- C10, amended.  Pipe registries are name-keyed dicts, so attaching a
second pipe under an existing name silently replaces the stored pipe
instead of raising the cardinality error — for Funnel (which also still
increments `expected_inputs`, leaving it larger than the stored-pipe count),
for Joiner and for Copy.  However, the round is not unreachable: one
delivery per stored pipe leaves `received_inputs` short of
`expected_inputs`, but any second envelope (e.g. the surviving pipe
delivering again) raises the never-reset counter to `expected_inputs` and
the merge fires. -/
theorem duplicate_pipe_name_replaces (s : FunnelState) (cs : CopyState)
    (js : JoinerState) (nm : String) (p1 p2 : Nat)
    (hjs : js.inputs = []) :
    (((s.add_input_pipe nm p1).add_input_pipe nm p2).inputs.length =
        (s.add_input_pipe nm p2).inputs.length ∧
      dictLookup nm ((s.add_input_pipe nm p1).add_input_pipe nm p2).inputs = some p2 ∧
      ((s.add_input_pipe nm p1).add_input_pipe nm p2).expected_inputs =
        s.expected_inputs + 2) ∧
    (∃ js1 js2, js.add_input_pipe nm p1 = .ok js1 ∧
      js1.add_input_pipe nm p2 = .ok js2 ∧ js2.inputs = [(nm, p2)]) ∧
    (((cs.add_output_pipe nm p1).add_output_pipe nm p2).outputs.length =
        (cs.add_output_pipe nm p2).outputs.length ∧
      dictLookup nm ((cs.add_output_pipe nm p1).add_output_pipe nm p2).outputs =
        some p2) ∧
    (∀ dp1 dp2 : DataPackage,
      (funnelTwoSameName.sink dp1).merged = false ∧
      ((funnelTwoSameName.sink dp1).state.sink dp2).merged = true) := by
  refine ⟨⟨?_, ?_, rfl⟩, ?_, ⟨?_, ?_⟩, ?_⟩
  · simp [FunnelState.add_input_pipe, length_dictInsert_dictInsert_same]
  · simp [FunnelState.add_input_pipe, dictLookup_dictInsert_self]
  · refine ⟨{ js with inputs := [(nm, p1)] }, { js with inputs := [(nm, p2)] }, ?_, ?_, rfl⟩
    · rw [JoinerState.add_input_pipe, if_pos (by simp [hjs])]
      simp [hjs, dictInsert]
    · rw [JoinerState.add_input_pipe, if_pos (by simp)]
      simp [dictInsert]
  · simp [CopyState.add_output_pipe, length_dictInsert_dictInsert_same]
  · simp [CopyState.add_output_pipe, dictLookup_dictInsert_self]
  · intro dp1 dp2
    have h1 : funnelTwoSameName.sink dp1 =
        { state := { funnelTwoSameName with dfs := [dp1.df], received_inputs := 1 },
          emitted := none, warnings := [], merged := false } := by
      rw [FunnelState.sink]
      simp [funnelTwoSameName, FunnelState.add_input_pipe, FunnelState.mkNew]
    refine ⟨by rw [h1], ?_⟩
    rw [h1]
    rw [FunnelState.sink]
    simp [funnelTwoSameName, FunnelState.add_input_pipe, FunnelState.mkNew,
      FunnelState.merge_and_pump]

/-- C10, witness for `duplicate_pipe_name_replaces`: instantiated on a fresh
Funnel, a fresh Copy and a fresh Joiner with pipe name `in` and pipe objects
10 and 11. -/
theorem duplicate_pipe_name_replaces_witness :
    ((FunnelState.mkNew "f").inputs.length = 0 ∧ (JoinerState.mkNew "j" "L" "R" "id"
      "inner" = JoinerState.mkNew "j" "L" "R" "id" "inner")) ∧
    ((((FunnelState.mkNew "f").add_input_pipe "in" 10).add_input_pipe "in" 11).inputs.length =
        ((FunnelState.mkNew "f").add_input_pipe "in" 11).inputs.length ∧
      dictLookup "in" (((FunnelState.mkNew "f").add_input_pipe "in" 10).add_input_pipe
        "in" 11).inputs = some 11 ∧
      (((FunnelState.mkNew "f").add_input_pipe "in" 10).add_input_pipe "in"
        11).expected_inputs = (FunnelState.mkNew "f").expected_inputs + 2) :=
  ⟨⟨rfl, rfl⟩,
   (duplicate_pipe_name_replaces (FunnelState.mkNew "f") (CopyState.mkNew "c")
      joinerFresh "in" 10 11 (by decide)).1⟩

/-- C3, counterexample.  The claim says the join is performed whenever both
role slots are populated, even if one role was delivered twice and
overwritten earlier.  Deliver role `L` twice and then role `R`: the second
`L` raises the counter to 2 and `pump` bails out ("needs exactly 2
DataFrames") without resetting, so when `R` arrives the counter is 3, never
again equal to 2, and no join output is ever produced — although after the
third call both role slots are populated. -/
theorem joiner_overwrite_no_join_counterexample :
    joinerLR.sink { pipe_name := "L", df := tIdOne } = .ok (joinerAfterL1, none) ∧
    joinerAfterL1.sink { pipe_name := "L", df := tIdNine } =
      .ok (joinerAfterL2, none) ∧
    joinerAfterL2.sink { pipe_name := "R", df := tIdNine } =
      .ok (joinerAfterL2R, none) ∧
    dictLookup "L" joinerAfterL2R.received_dfs = some tIdNine ∧
    dictLookup "R" joinerAfterL2R.received_dfs = some tIdNine ∧
    joinerAfterL2R.received_inputs = 3 := by
  decide

/-- C3, amended.  `Joiner.sink` performs the join exactly when the
incremented `received_inputs` counter equals 2 and the role dict then holds
exactly two frames (which, absent duplicate deliveries, coincides with both
roles being populated): it forwards `pd.merge` of the left and right frames
and resets both role slots and the counter.  When mode is `inner` the result
has one row per key-matching (left row, right row) pair — for Scenario C
(left ids 1,2,3; right ids 2,3) exactly 2 rows.  A duplicate delivery
breaks the coincidence and the join is then skipped (see the
counterexample). -/
theorem joiner_sink_join_fires (s : JoinerState) (dp : DataPackage)
    (l r : Table)
    (horig : dp.pipe_name = s.left_pipe_name ∨ dp.pipe_name = s.right_pipe_name)
    (hkey : dp.df.cols.contains s.key = true)
    (hcount : s.received_inputs + 1 = s.expected_inputs)
    (hlen : (dictInsert dp.pipe_name dp.df s.received_dfs).length = 2)
    (houts : s.outputs.length ≠ 0)
    (hl : dictLookup s.left_pipe_name
      (dictInsert dp.pipe_name dp.df s.received_dfs) = some l)
    (hr : dictLookup s.right_pipe_name
      (dictInsert dp.pipe_name dp.df s.received_dfs) = some r) :
    s.sink dp = .ok ({ s with received_dfs := [], received_inputs := 0 },
      some (pdMerge l r s.key s.join_type)) ∧
    (s.join_type = "inner" →
      (pdMerge l r s.key s.join_type).rows.length =
        (l.rows.map (fun lr => (r.rows.filter
          (fun rr => fieldVal r.cols s.key rr = fieldVal l.cols s.key lr)).length)).sum) := by
  constructor
  · rw [JoinerState.sink, if_neg (not_not_intro horig),
      if_neg (by simpa using hkey)]
    simp only [hcount, if_pos]
    rw [JoinerState.pump]
    rw [if_neg (by simpa using hlen)]
    rw [if_neg (by simpa using houts)]
    rw [hl, hr]
  · intro hinner
    rw [hinner, pdMerge]
    simp only [eq_self_iff_true, if_true, List.length_flatMap]
    congr 1
    refine List.map_congr_left ?_
    intro lr _
    simp [Function.comp]

/-- C3, witness for `joiner_sink_join_fires`: Scenario C.  With the left
frame (ids 1, 2, 3) already stored under role `L`, the arrival of the right
frame (ids 2, 3) on role `R` fires the inner join, the joiner re-arms, and
the output has exactly 2 rows. -/
theorem joiner_sink_join_fires_witness :
    (("R" : String) = joinerAfterL.left_pipe_name ∨
      ("R" : String) = joinerAfterL.right_pipe_name) ∧
    (joinerAfterL.sink { pipe_name := "R", df := tIdR } =
        .ok ({ joinerAfterL with received_dfs := [], received_inputs := 0 },
          some (pdMerge tIdL tIdR "id" "inner")) ∧
      ("inner" = "inner" →
        (pdMerge tIdL tIdR "id" "inner").rows.length =
          (tIdL.rows.map (fun lr => (tIdR.rows.filter
            (fun rr => fieldVal tIdR.cols "id" rr = fieldVal tIdL.cols "id" lr)).length)).sum)) ∧
    (pdMerge tIdL tIdR "id" "inner").rows.length = 2 :=
  ⟨by decide,
   joiner_sink_join_fires joinerAfterL { pipe_name := "R", df := tIdR } tIdL tIdR
     (by decide) (by decide) (by decide) (by decide) (by decide) (by decide) (by decide),
   by decide⟩

theorem sum_map_one {α : Type} (l : List α) :
    (l.map (fun _ => (1 : Nat))).sum = l.length := by
  induction l with
  | nil => rfl
  | cons a l ih => simp [ih, Nat.add_comm]

/-- C4.  For a lenient Switcher and a batch whose switch field exists and
whose field values pass the type validation, `sink` succeeds and every input
row lands in exactly one of the produced buckets — a forwarded partition, a
dropped-unmatched partition, or the dropped-null rows — and the bucket
sizes add up to the input row count, so no row is duplicated or lost. -/
theorem switcher_partition_exhaustive (s : SwitcherState) (dp : DataPackage)
    (hstrict : s.fail_on_unmatch = false)
    (hfield : dp.df.cols.contains s.field = true)
    (hvalid : (dp.df.rows.map (fieldVal dp.df.cols s.field)).any
      isInvalidFieldValue = false) :
    ∃ res : SwitcherStepResult,
      s.sink dp = .ok res ∧
      res.state = { s with received_df := none } ∧
      (∀ r ∈ dp.df.rows,
        ((res.parts.forwarded.map Prod.snd) ++ res.parts.dropped ++
          [res.droppedNull]).countP (fun part => decide (r ∈ part)) = 1) ∧
      ((((res.parts.forwarded.map Prod.snd) ++ res.parts.dropped ++
        [res.droppedNull]).map List.length).sum = dp.df.rows.length) := by
  rcases routeValues_spec { s with received_df := some dp.df } dp.df hstrict
      (firstOcc ((dp.df.rows.map (fieldVal dp.df.cols s.field)).filter
        (fun v => v ≠ Value.nullV))) with ⟨rp, hrv, hcount0, hlen0⟩
  have hcount : ∀ r : List Value,
      (rp.forwarded.map Prod.snd).countP (fun part => decide (r ∈ part)) +
        rp.dropped.countP (fun part => decide (r ∈ part)) =
        (firstOcc ((dp.df.rows.map (fieldVal dp.df.cols s.field)).filter
          (fun v => v ≠ Value.nullV))).countP (fun v =>
            decide (r ∈ dp.df.rows.filter
              (fun row => fieldVal dp.df.cols s.field row = v))) := hcount0
  have hlen : ((rp.forwarded.map Prod.snd).map List.length).sum +
      (rp.dropped.map List.length).sum =
      ((firstOcc ((dp.df.rows.map (fieldVal dp.df.cols s.field)).filter
        (fun v => v ≠ Value.nullV))).map (fun v =>
          (dp.df.rows.filter
            (fun row => fieldVal dp.df.cols s.field row = v)).length)).sum := hlen0
  have huniq_mem : ∀ u : Value,
      u ∈ firstOcc ((dp.df.rows.map (fieldVal dp.df.cols s.field)).filter
        (fun v => v ≠ Value.nullV)) ↔
      u ∈ dp.df.rows.map (fieldVal dp.df.cols s.field) ∧ u ≠ Value.nullV := by
    intro u
    rw [mem_firstOcc]
    simp
  have hone : ∀ x ∈ dp.df.rows,
      (firstOcc ((dp.df.rows.map (fieldVal dp.df.cols s.field)).filter
        (fun v => v ≠ Value.nullV))).countP
          (fun v => decide (fieldVal dp.df.cols s.field x = v)) +
        (if fieldVal dp.df.cols s.field x = Value.nullV then 1 else 0) = 1 := by
    intro x hx
    rw [nodup_countP_indicator (fieldVal dp.df.cols s.field x) _ (nodup_firstOcc _)]
    by_cases hnull : fieldVal dp.df.cols s.field x = Value.nullV
    · rw [if_neg, if_pos hnull]
      intro hc
      exact ((huniq_mem _).mp hc).2 hnull
    · rw [if_pos, if_neg hnull]
      · exact (huniq_mem _).mpr
          ⟨List.mem_map_of_mem (fieldVal dp.df.cols s.field) hx, hnull⟩
  refine ⟨{ state := { s with received_df := none }, parts := rp,
            droppedNull := dp.df.rows.filter
              (fun r => fieldVal dp.df.cols s.field r = Value.nullV),
            warnedNoData := false }, ?_, rfl, ?_, ?_⟩
  · rw [SwitcherState.sink, if_neg (by simpa using hfield), if_neg (by simp [hvalid])]
    simp only [SwitcherState.pump]
    rw [hrv]
    simp [hstrict]
  · intro r hr
    have hc := hcount r
    have hcongr : (firstOcc ((dp.df.rows.map (fieldVal dp.df.cols s.field)).filter
        (fun v => v ≠ Value.nullV))).countP (fun v =>
          decide (r ∈ dp.df.rows.filter
            (fun row => fieldVal dp.df.cols s.field row = v))) =
        (firstOcc ((dp.df.rows.map (fieldVal dp.df.cols s.field)).filter
          (fun v => v ≠ Value.nullV))).countP
            (fun v => decide (fieldVal dp.df.cols s.field r = v)) := by
      refine List.countP_congr ?_
      intro v _
      simp [List.mem_filter, hr]
    rw [hcongr] at hc
    simp only [List.countP_append]
    have hone2 := hone r hr
    by_cases hnull : fieldVal dp.df.cols s.field r = Value.nullV
    · have hz : (firstOcc ((dp.df.rows.map (fieldVal dp.df.cols s.field)).filter
          (fun v => v ≠ Value.nullV))).countP
            (fun v => decide (fieldVal dp.df.cols s.field r = v)) = 0 := by
        rw [if_pos hnull] at hone2
        omega
      have hn1 : ([dp.df.rows.filter
          (fun x => fieldVal dp.df.cols s.field x = Value.nullV)].countP
            (fun part => decide (r ∈ part))) = 1 := by
        simp [List.countP_cons, List.mem_filter, hr, hnull]
      rw [hn1]
      omega
    · have hn0 : ([dp.df.rows.filter
          (fun x => fieldVal dp.df.cols s.field x = Value.nullV)].countP
            (fun part => decide (r ∈ part))) = 0 := by
        simp [List.countP_cons, List.mem_filter, hnull]
      rw [if_neg hnull] at hone2
      rw [hn0]
      omega
  · simp only [List.map_append, List.sum_append]
    have hswap := sum_countP_swap (fieldVal dp.df.cols s.field)
      (firstOcc ((dp.df.rows.map (fieldVal dp.df.cols s.field)).filter
        (fun v => v ≠ Value.nullV)))
      (fun a b => decide (a = b)) dp.df.rows
    have hfilt : ∀ v : Value,
        (dp.df.rows.filter
          (fun row => fieldVal dp.df.cols s.field row = v)).length =
        dp.df.rows.countP (fun row => decide (fieldVal dp.df.cols s.field row = v)) :=
      fun v => (List.countP_eq_length_filter _ _).symm
    have hnanlen : (dp.df.rows.filter
        (fun r => fieldVal dp.df.cols s.field r = Value.nullV)).length =
        (dp.df.rows.map (fun x =>
          if fieldVal dp.df.cols s.field x = Value.nullV then 1 else 0)).sum := by
      rw [← List.countP_eq_length_filter]
      rw [countP_eq_sum_indicator]
      refine congrArg List.sum (List.map_congr_left ?_)
      intro x _
      by_cases hx : fieldVal dp.df.cols s.field x = Value.nullV
      · simp [hx]
      · simp [hx]
    have hmain : ((firstOcc ((dp.df.rows.map (fieldVal dp.df.cols s.field)).filter
        (fun v => v ≠ Value.nullV))).map (fun v =>
          (dp.df.rows.filter
            (fun row => fieldVal dp.df.cols s.field row = v)).length)).sum +
        (dp.df.rows.filter
          (fun r => fieldVal dp.df.cols s.field r = Value.nullV)).length =
        dp.df.rows.length := by
      rw [hnanlen]
      rw [List.map_congr_left (fun v _ => hfilt v)]
      rw [hswap]
      rw [← List.sum_map_add]
      rw [List.map_congr_left hone]
      exact sum_map_one dp.df.rows
    simp only [List.map_cons, List.map_nil, List.sum_cons, List.sum_nil]
    omega

/-- C4, witness for `switcher_partition_exhaustive`: Scenario B.  Field
`number`, mapping `1 -> a`, `2 -> b`, lenient, input values 0..4: channel
`a` receives exactly the one row with value 1, channel `b` exactly the one
row with value 2, the partitions for 0, 3 and 4 are dropped, no null rows,
and the call returns without error. -/
theorem switcher_partition_exhaustive_witness :
    (switcherB.fail_on_unmatch = false ∧
      dfNumbers5.cols.contains switcherB.field = true) ∧
    (∃ res : SwitcherStepResult,
      switcherB.sink { pipe_name := "in", df := dfNumbers5 } = .ok res ∧
      res.state = { switcherB with received_df := none } ∧
      (∀ r ∈ dfNumbers5.rows,
        ((res.parts.forwarded.map Prod.snd) ++ res.parts.dropped ++
          [res.droppedNull]).countP (fun part => decide (r ∈ part)) = 1) ∧
      ((((res.parts.forwarded.map Prod.snd) ++ res.parts.dropped ++
        [res.droppedNull]).map List.length).sum = dfNumbers5.rows.length)) ∧
    (switcherB.sink { pipe_name := "in", df := dfNumbers5 } =
      .ok { state := { switcherB with received_df := none },
            parts := { forwarded := [("a", [[Value.intV 1]]), ("b", [[Value.intV 2]])],
                       dropped := [[[Value.intV 0]], [[Value.intV 3]], [[Value.intV 4]]] },
            droppedNull := [], warnedNoData := false }) :=
  ⟨⟨rfl, by decide⟩,
   switcher_partition_exhaustive switcherB { pipe_name := "in", df := dfNumbers5 }
     rfl (by decide) (by decide),
   by decide⟩
